import Mathlib

/-!
Shallow embedding of the OTT-release backend's ingestion pipeline
(`scrapper.py`, `auto_update.py`): record model, date ranking, merge,
validation, backup selection/pruning, file-write trace, and the update
orchestrator's control flow, with theorems checking the specification's
claims against these definitions.
-/

namespace OTT

/-! ### Data model (rows built in `scrapper.py` `scrape_movies`) -/

/-- One scraped movie row: the dict built in `scrape_movies` with keys
`name, platform, available_on, type, imdb_rating` (rating nullable). -/
structure Movie where
  name : String
  platform : String
  available_on : String
  type : String
  imdb_rating : Option Int
deriving DecidableEq, Repr

/-! ### Python `datetime` values (`scrapper.py` `parse_date`)

A naive `datetime` is modelled by its calendar fields plus the microsecond
count within the day; `datetime.min` / `datetime.max` are the concrete
extreme values Python defines. -/

structure PyDateTime where
  year : Nat
  month : Nat
  day : Nat
  micro : Nat
deriving DecidableEq, Repr

/-- Python `datetime.min` = 0001-01-01 00:00:00. -/
def dtMin : PyDateTime := ⟨1, 1, 1, 0⟩

/-- Python `datetime.max` = 9999-12-31 23:59:59.999999. -/
def dtMax : PyDateTime := ⟨9999, 12, 31, 86399999999⟩

/-- Gregorian leap-year rule used by `datetime`. -/
def isLeap (y : Nat) : Bool := y % 4 == 0 && (y % 100 != 0 || y % 400 == 0)

/-- Number of days in month `m` of year `y` (the bound `strptime` checks
when it constructs the `datetime`). -/
def daysInMonth (y m : Nat) : Nat :=
  if m = 2 then (if isLeap y then 29 else 28)
  else if m = 4 ∨ m = 6 ∨ m = 9 ∨ m = 11 then 30 else 31

/-! ### String primitives over character lists

Python's `str` operations used by the scraper (`strip`, `lower`,
substring test, `startswith`, `endswith`, lexicographic comparison by
code point) are modelled on the underlying `List Char` by structural
recursion; ASCII-faithful, which covers every literal the code handles. -/

/-- Model of `str.strip()`: drop leading and trailing whitespace. -/
def trimL (l : List Char) : List Char :=
  ((l.dropWhile Char.isWhitespace).reverse.dropWhile Char.isWhitespace).reverse

/-- Model of `str.lower()`. -/
def lowerL (l : List Char) : List Char := l.map Char.toLower

/-- The normalisation `s.strip().lower()` performed at the top of `parse_date`. -/
def normalize (s : String) : List Char := lowerL (trimL s.data)

/-- Does the first list occur as the initial segment of the second? -/
def startsWithL : List Char → List Char → Bool
  | [], _ => true
  | _ :: _, [] => false
  | p :: ps, c :: cs => p == c && startsWithL ps cs

/-- Python's `sub in s` substring test. -/
def containsL (sub : List Char) : List Char → Bool
  | [] => startsWithL sub []
  | c :: cs => startsWithL sub (c :: cs) || containsL sub cs

/-- The test `'soon' in date_str` after normalisation. -/
def containsSoon (l : List Char) : Bool := containsL "soon".data l

/-- Model of `str.startswith(p)`. -/
def strStartsWith (s p : String) : Bool := startsWithL p.data s.data

/-- Model of `str.endswith(p)`. -/
def strEndsWith (s p : String) : Bool := startsWithL p.data.reverse s.data.reverse

/-- Python string `<=`: lexicographic by code point. -/
def charsLe : List Char → List Char → Bool
  | [], _ => true
  | _ :: _, [] => false
  | a :: as, b :: bs =>
    if a < b then true else if b < a then false else charsLe as bs

/-! ### `strptime` for the three formats tried by `parse_date`

Python's `strptime` compiles `"%d %b %Y"` to a regex in which a space
matches a run of whitespace, `%d` matches a 1–2 digit day 1–31, `%b` a
case-insensitive month abbreviation and `%Y` exactly four digits, anchored
at both ends; the resulting fields must form a valid calendar date.
The inputs here are already lower-cased, so splitting on whitespace and
checking each token is an exact model. -/

/-- Whitespace tokenisation: the field structure `strptime`'s compiled
regex imposes on the input (`cur` accumulates the current token reversed). -/
def tokenizeAux : List Char → List Char → List (List Char)
  | [], cur => if cur = [] then [] else [cur.reverse]
  | c :: rest, cur =>
    if c.isWhitespace then
      if cur = [] then tokenizeAux rest [] else cur.reverse :: tokenizeAux rest []
    else tokenizeAux rest (c :: cur)

/-- Split a normalised string into whitespace-separated tokens. -/
def tokenize (l : List Char) : List (List Char) := tokenizeAux l []

/-- Numeric value of a digit token. -/
def digitsVal (t : List Char) : Nat :=
  t.foldl (fun acc c => acc * 10 + (c.toNat - 48)) 0

/-- Field `%d`: one or two digits, value 1–31. -/
def parseDay (t : List Char) : Option Nat :=
  if t.length = 0 ∨ 2 < t.length ∨ ¬ (t.all Char.isDigit = true) then none
  else if 1 ≤ digitsVal t ∧ digitsVal t ≤ 31 then some (digitsVal t) else none

/-- C-locale abbreviated month names matched by `%b` (input lower-cased). -/
def monthAbbrevs : List (List Char) :=
  ["jan".data, "feb".data, "mar".data, "apr".data, "may".data, "jun".data,
   "jul".data, "aug".data, "sep".data, "oct".data, "nov".data, "dec".data]

/-- Field `%b`: month abbreviation, yielding the month number. -/
def parseMonth (t : List Char) : Option Nat :=
  (monthAbbrevs.indexOf? t).map (fun i => i + 1)

/-- Field `%Y`: exactly four digits; `datetime` then requires year ≥ 1. -/
def parseYear (t : List Char) : Option Nat :=
  if t.length = 4 ∧ t.all Char.isDigit = true ∧ 1 ≤ digitsVal t then
    some (digitsVal t)
  else none

/-- The `datetime(year, month, day)` construction: rejects out-of-range days. -/
def mkDate (y m d : Nat) : Option PyDateTime :=
  if d ≤ daysInMonth y m then some ⟨y, m, d, 0⟩ else none

/-- Model of `datetime.strptime(s, "%d %b %Y")` on the token list of `s`. -/
def tryDMY (toks : List (List Char)) : Option PyDateTime :=
  match toks with
  | [d, m, y] =>
    match parseDay d, parseMonth m, parseYear y with
    | some dd, some mm, some yy => mkDate yy mm dd
    | _, _, _ => none
  | _ => none

/-- Model of `datetime.strptime(s, "%b %Y")`: day defaults to 1. -/
def tryMY (toks : List (List Char)) : Option PyDateTime :=
  match toks with
  | [m, y] =>
    match parseMonth m, parseYear y with
    | some mm, some yy => some ⟨yy, mm, 1, 0⟩
    | _, _ => none
  | _ => none

/-- Decimal digits of `current_year` as interpolated by
`f"{date_str} {current_year}"` (years of interest are four-digit). -/
def yearChars (n : Nat) : List Char := (Nat.toDigits 10 n)

/-- The try/except chain of `parse_date`: `"%d %b %Y"`, then `"%b %Y"`,
then `f"{date_str} {current_year}"` against `"%d %b %Y"`. -/
def pyParse (currentYear : Nat) (toks : List (List Char)) : Option PyDateTime :=
  match tryDMY toks with
  | some d => some d
  | none =>
    match tryMY toks with
    | some d => some d
    | none => tryDMY (toks ++ [yearChars currentYear])

/-- Function `parse_date` from `scrapper.py`: empty string → `datetime.max`; after
strip+lower, any text containing `soon` → `datetime.min`; otherwise the
format chain above; all failing → `datetime.max`. `currentYear` stands for
`datetime.now().year`. -/
def parse_date (currentYear : Nat) (date_str : String) : PyDateTime :=
  if date_str = "" then dtMax
  else
  let s := normalize date_str
  if containsSoon s then dtMin
  else
  match pyParse currentYear (tokenize s) with
  | some d => d
  | none => dtMax

/-! ### Sort keys (`scrapper.py` `sort_key`) -/

/-- Ordinal day count since 0001-01-01 (proleptic Gregorian), as
`datetime.toordinal() - 1`. -/
def toOrdinal (d : PyDateTime) : Nat :=
  let py := d.year - 1
  py * 365 + py / 4 - py / 100 + py / 400 +
    (List.range (d.month - 1)).foldl (fun acc i => acc + daysInMonth d.year (i + 1)) 0 +
    (d.day - 1)

/-- Model of `datetime.timestamp()` for the midnight datetimes `parse_date`
produces: seconds relative to the 1970-01-01 epoch. The local-timezone
shift CPython applies is a bounded offset that never reorders or
identifies distinct days, so this integer model is order- and
equality-faithful. -/
def timestamp (d : PyDateTime) : Int := ((toOrdinal d : Int) - 719162) * 86400

/-- The second component of a sort key: either a `datetime` sentinel
(Python type `datetime`) or a negated timestamp (Python type `float`).
The two constructors model Python's two runtime types. -/
inductive Sec where
  | dt (d : PyDateTime)
  | fl (t : Int)
deriving DecidableEq, Repr

/-- A sort key, the Python tuple `(tier, secondary, name)`. -/
abbrev Key := Nat × Sec × String

/-- Function `sort_key` from `save_to_file`: tier 0 with `datetime.min` when the
parsed date equals `datetime.min`, tier 2 with `datetime.max` when it
equals `datetime.max`, otherwise tier 1 with the negated timestamp. -/
def sort_key (currentYear : Nat) (movie : Movie) : Key :=
  let parsed_date := parse_date currentYear movie.available_on
  if parsed_date = dtMin then (0, Sec.dt dtMin, movie.name)
  else if parsed_date = dtMax then (2, Sec.dt dtMax, movie.name)
  else (1, Sec.fl (-(timestamp parsed_date)), movie.name)

/-- Injective monotone encoding of a `PyDateTime` used to compare two
`datetime` values (Python compares them field-lexicographically). -/
def dtIdx (d : PyDateTime) : Nat :=
  ((d.year * 13 + d.month) * 32 + d.day) * 100000000000 + d.micro

/-- Strict comparison on secondaries. Python never compares a `datetime`
with a `float` without raising, and the sort only reaches the secondary
when the tiers tie — in which case both secondaries come from the same
constructor — so the cross-constructor completion chosen here is never
observable; `pySecCmp` below models the raising semantics exactly. -/
def secLtb : Sec → Sec → Bool
  | Sec.dt a, Sec.dt b => decide (dtIdx a < dtIdx b)
  | Sec.fl a, Sec.fl b => decide (a < b)
  | Sec.dt _, Sec.fl _ => true
  | Sec.fl _, Sec.dt _ => false

/-- Lexicographic tuple order on keys, as Python's tuple `<=`; strings
compare by code point as in Python. -/
def keyLEb (k1 k2 : Key) : Bool :=
  decide (k1.1 < k2.1) ||
    (k1.1 == k2.1 && (secLtb k1.2.1 k2.2.1 ||
      (k1.2.1 == k2.2.1 && charsLe k1.2.2.data k2.2.2.data)))

/-- The relation `list.sort(key=sort_key)` sorts by. -/
def movieLE (cy : Nat) (a b : Movie) : Prop :=
  keyLEb (sort_key cy a) (sort_key cy b) = true

instance (cy : Nat) : DecidableRel (movieLE cy) :=
  fun _ _ => inferInstanceAs (Decidable (_ = true))

/-- The sort `updated_movies.sort(key=sort_key)`: Python's sort is stable, so any
stable sort by the same total key order computes the same list. -/
def sortMovies (cy : Nat) (l : List Movie) : List Movie :=
  l.insertionSort (movieLE cy)

/-- Python comparison of two secondaries: `none` models the `TypeError`
raised when a `datetime` is compared with a `float`. -/
def pySecCmp : Sec → Sec → Option Ordering
  | Sec.dt a, Sec.dt b => some (compare (dtIdx a) (dtIdx b))
  | Sec.fl a, Sec.fl b => some (compare a b)
  | _, _ => none

/-- Python string comparison, by code point. -/
def charsCmp : List Char → List Char → Ordering
  | [], [] => Ordering.eq
  | [], _ :: _ => Ordering.lt
  | _ :: _, [] => Ordering.gt
  | a :: as, b :: bs =>
    if a < b then Ordering.lt
    else if b < a then Ordering.gt
    else charsCmp as bs

/-- Python comparison of two key tuples: elements are compared with `==`
first, and `<` — which can raise — is consulted only at the first unequal
position. -/
def pyKeyCmp (k1 k2 : Key) : Option Ordering :=
  if k1.1 = k2.1 then
    match pySecCmp k1.2.1 k2.2.1 with
    | none => none
    | some Ordering.eq => some (charsCmp k1.2.2.data k2.2.2.data)
    | some o => some o
  else some (compare k1.1 k2.1)

/-! ### Merge (`scrapper.py` `save_to_file`, duplicate avoidance) -/

/-- The duplicate test: `any(existing['name'] == movie['name'] and
existing['platform'] == movie['platform'] for existing in existing_movies)`.
Note it scans `existing_movies`, the list loaded from the file, not the
list being built. -/
def identityIn (existing : List Movie) (movie : Movie) : Bool :=
  existing.any (fun e => e.name == movie.name && e.platform == movie.platform)

/-- The merge loop of `save_to_file`: start from a copy of the existing
list, append each incoming movie whose identity is not in the existing
list, counting appends. -/
def mergeMovies (existing movies : List Movie) : List Movie × Nat :=
  movies.foldl
    (fun acc movie =>
      if identityIn existing movie then acc else (acc.1 ++ [movie], acc.2 + 1))
    (existing, 0)

/-! ### Validation (`auto_update.py` `validate_data_file`) -/

/-- A JSON object as far as validation looks at it: the set of keys
present (values are irrelevant to the checks performed). -/
structure JObj where
  fields : List String
deriving DecidableEq, Repr

/-- What reading and JSON-decoding the data file can yield: a decode
error, a non-list document, or a list of objects. -/
inductive JData where
  | corrupt
  | notList
  | arr (items : List JObj)
deriving DecidableEq, Repr

/-- List `required_fields` in `validate_data_file`. -/
def required_fields : List String := ["name", "platform", "available_on", "type"]

/-- Function `validate_data_file`: False on decode error, non-list or empty list;
otherwise checks the required fields on `data[0]` only (`sample_movie`). -/
def validate_data_file : JData → Bool
  | JData.corrupt => false
  | JData.notList => false
  | JData.arr [] => false
  | JData.arr (sample :: _) => required_fields.all (fun f => sample.fields.contains f)

/-! ### Backup selection (`auto_update.py` `get_latest_backup`) -/

/-- The filename filter in `get_latest_backup` and `cleanup_old_backups`:
`startswith('movies_backup_') and endswith('.json')`. -/
def isBackupName (f : String) : Bool :=
  strStartsWith f "movies_backup_" && strEndsWith f ".json"

/-- Descending-order relation on filenames (`backups.sort(reverse=True)`). -/
def strGE (a b : String) : Prop := charsLe b.data a.data = true

instance : DecidableRel strGE :=
  fun _ _ => inferInstanceAs (Decidable (_ = true))

/-- Model of `backups.sort(reverse=True)`. -/
def sortDescStr (l : List String) : List String := l.insertionSort strGE

/-- Function `get_latest_backup` over the directory listing: filter the archival
pattern, sort descending, take the first. -/
def get_latest_backup (names : List String) : Option String :=
  (sortDescStr (names.filter isBackupName)).head?

/-! ### Retention pruning (`auto_update.py` `cleanup_old_backups` and the
log cleanup in `main`) -/

/-- A directory entry: filename and modification time (seconds). -/
structure DirFile where
  name : String
  mtime : Int
deriving DecidableEq, Repr

/-- Function `cleanup_old_backups`: delete each `movies_backup_*.json` file whose
mtime is before the cutoff (`now - BACKUP_RETENTION_DAYS`); the surviving
directory contents are returned. -/
def cleanup_old_backups (cutoff : Int) (dir : List DirFile) : List DirFile :=
  dir.filter (fun f => ! (isBackupName f.name && decide (f.mtime < cutoff)))

/-- The log cleanup in `main` step 6: delete each `update_*.log` file
whose mtime is before the cutoff. -/
def cleanup_old_logs (cutoff : Int) (dir : List DirFile) : List DirFile :=
  dir.filter
    (fun f => ! (strStartsWith f.name "update_" && strEndsWith f.name ".log"
                  && decide (f.mtime < cutoff)))

/-! ### The data-file write (`save_to_file`, persistence step)

`save_to_file` opens `DATA_FILE` with mode `'w'` — truncating it in
place — and then streams the serialised list into it.  The observable
file contents over time are therefore the old content followed by every
prefix of the new content. -/

/-- The sequence of observable file states (as character contents) during
the write: the previous content, then (after `open(..., 'w')` truncates)
each prefix of the new serialised content as it is streamed, ending with
the full new content. -/
def writeTrace (old new : List Char) : List (List Char) :=
  old :: (List.range (new.length + 1)).map (fun k => new.take k)

/-! ### Orchestrator (`auto_update.py` `main`, steps 1–4)

State: the data file (present with parsed contents, or absent) and the
backup files in `data/` with their contents.  Timestamps that the code
takes from `datetime.now()` are passed in as the strings `tsS`/`tsA`. -/

/-- The files the cycle touches: the data file and the backups. -/
structure FS where
  dataFile : Option (List Movie)
  backups : List (String × List Movie)
deriving DecidableEq, Repr

/-- How one invocation of the scraper subprocess can go, as observed at
the fetch boundary: subprocess timeout, an exception escaping the script,
a non-200 response, a page without the expected table, or a parsed list
of rows. -/
inductive Fetch where
  | timeout
  | raised
  | badStatus (code : Nat)
  | noTable
  | rows (rs : List Movie)
deriving DecidableEq, Repr

/-- What `main` observed while running, plus the process exit code. -/
structure Report where
  scraperSuccess : Bool
  validationRan : Bool
  validationOk : Bool
  restoreAttempted : Bool
  restoreOk : Bool
  exitCode : Nat
deriving DecidableEq, Repr

/-- The file-system effect of `save_to_file rows`: load existing movies
(missing or undecodable file → empty list), merge, sort, write the data
file, and create an archival backup of the written list. -/
def save_to_file (cy : Nat) (tsA : String) (rows : List Movie) (st : FS) : FS :=
  let existing := st.dataFile.getD []
  let updated := (mergeMovies existing rows).1
  let sorted := sortMovies cy updated
  { dataFile := some sorted
    backups := st.backups ++ [("movies_backup_" ++ tsA ++ ".json", sorted)] }

/-- Function `run_scraper`: returns False on subprocess timeout or a non-zero exit
(an uncaught exception); `scrape_movies` itself returns normally — exit
code 0, hence True — on a non-200 status and on a missing table, writing
nothing; on extracted rows it runs `save_to_file`. -/
def run_scraper (cy : Nat) (tsA : String) (f : Fetch) (st : FS) : FS × Bool :=
  match f with
  | Fetch.timeout => (st, false)
  | Fetch.raised => (st, false)
  | Fetch.badStatus _ => (st, true)
  | Fetch.noTable => (st, true)
  | Fetch.rows rs => (save_to_file cy tsA rs st, true)

/-- Function `validate_data_file` as invoked by `main` on the current data file:
a missing file raises (→ False); the typed model always carries the four
required fields, so the field check reduces to non-emptiness. -/
def validateFS (st : FS) : Bool :=
  match st.dataFile with
  | some l => decide (l ≠ [])
  | none => false

/-- Function `create_safety_backup`: copy the data file, when present, to a
`movies_safety_*` path; returns the path taken. -/
def create_safety_backup (tsS : String) (st : FS) : FS × Option String :=
  match st.dataFile with
  | some content =>
    ({ st with
        backups := st.backups ++ [("movies_safety_" ++ tsS ++ ".json", content)] },
      some ("movies_safety_" ++ tsS ++ ".json"))
  | none => (st, none)

/-- Function `restore_from_backup`: find the latest `movies_backup_*` file and copy
it over the data file; False when none exists (or the copy fails). -/
def restore_from_backup (st : FS) : FS × Bool :=
  match get_latest_backup (st.backups.map Prod.fst) with
  | none => (st, false)
  | some name =>
    match st.backups.lookup name with
    | some content => ({ st with dataFile := some content }, true)
    | none => (st, false)

/-- Function `main` steps 1–4: safety backup, scraper, validation, then either
restore (exit 1 when that fails) or deletion of the safety backup. -/
def runMain (cy : Nat) (tsS tsA : String) (f : Fetch) (st0 : FS) : FS × Report :=
  let step1 := create_safety_backup tsS st0
  let step2 := run_scraper cy tsA f step1.1
  let scraperOk := step2.2
  let vOk := if scraperOk then validateFS step2.1 else false
  if scraperOk && vOk then
    let st3 :=
      match step1.2 with
      | some name =>
        { step2.1 with backups := step2.1.backups.filter (fun b => b.1 ≠ name) }
      | none => step2.1
    (st3, ⟨true, scraperOk, vOk, false, false, 0⟩)
  else
    let step4 := restore_from_backup step2.1
    if step4.2 then (step4.1, ⟨scraperOk, scraperOk, vOk, true, true, 0⟩)
    else (step4.1, ⟨scraperOk, scraperOk, vOk, true, false, 1⟩)

/-! ## Helper lemmas -/

/-- The merge loop characterised: it appends, in incoming order, exactly
those rows whose identity is absent from the `existing` list. -/
theorem merge_foldl (existing : List Movie) (movies : List Movie) :
    ∀ (l : List Movie) (n : Nat),
      movies.foldl
        (fun acc movie =>
          if identityIn existing movie then acc else (acc.1 ++ [movie], acc.2 + 1))
        (l, n) =
      (l ++ movies.filter (fun m => ! identityIn existing m),
        n + (movies.filter (fun m => ! identityIn existing m)).length) := by
  induction movies with
  | nil => intro l n; simp
  | cons m ms ih =>
    intro l n
    simp only [List.foldl_cons, List.filter_cons]
    cases h : identityIn existing m with
    | true =>
      rw [if_pos rfl, ih]
      simp
    | false =>
      rw [if_neg (by simp), ih]
      simp [List.append_assoc]
      omega

/-- Merge in closed form. -/
theorem mergeMovies_eq (existing movies : List Movie) :
    mergeMovies existing movies =
      (existing ++ movies.filter (fun m => ! identityIn existing m),
        (movies.filter (fun m => ! identityIn existing m)).length) := by
  unfold mergeMovies
  rw [merge_foldl]
  simp

theorem charsLe_refl (l : List Char) : charsLe l l = true := by
  induction l with
  | nil => rfl
  | cons a as ih => simp [charsLe, ih]

theorem charsLe_total (a b : List Char) : charsLe a b = true ∨ charsLe b a = true := by
  induction a generalizing b with
  | nil => left; rfl
  | cons x xs ih =>
    cases b with
    | nil => right; rfl
    | cons y ys =>
      rcases lt_trichotomy x y with h | h | h
      · left; simp [charsLe, h]
      · subst h
        rcases ih ys with h2 | h2
        · left; simp [charsLe, h2]
        · right; simp [charsLe, h2]
      · right; simp [charsLe, h]

theorem charsLe_trans {a b c : List Char} (h1 : charsLe a b = true)
    (h2 : charsLe b c = true) : charsLe a c = true := by
  induction a generalizing b c with
  | nil => rfl
  | cons x xs ih =>
    cases b with
    | nil => simp [charsLe] at h1
    | cons y ys =>
      cases c with
      | nil => simp [charsLe] at h2
      | cons z zs =>
        simp only [charsLe] at h1 h2 ⊢
        rcases lt_trichotomy x y with hxy | hxy | hxy
        · rcases lt_trichotomy y z with hyz | hyz | hyz
          · simp [lt_trans hxy hyz]
          · subst hyz; simp [hxy]
          · rw [if_neg (lt_asymm hyz), if_pos hyz] at h2; exact absurd h2 (by simp)
        · subst hxy
          rw [if_neg (lt_irrefl x), if_neg (lt_irrefl x)] at h1
          rcases lt_trichotomy x z with hyz | hyz | hyz
          · simp [hyz]
          · subst hyz
            rw [if_neg (lt_irrefl x), if_neg (lt_irrefl x)] at h2 ⊢
            exact ih h1 h2
          · rw [if_neg (lt_asymm hyz), if_pos hyz] at h2; exact absurd h2 (by simp)
        · rw [if_neg (lt_asymm hxy), if_pos hxy] at h1; exact absurd h1 (by simp)

instance : IsTotal String strGE :=
  ⟨fun a b => (charsLe_total b.data a.data).imp id id⟩

instance : IsTrans String strGE :=
  ⟨fun _ _ _ h1 h2 => charsLe_trans h2 h1⟩

instance : IsRefl String strGE := ⟨fun a => charsLe_refl a.data⟩

/-! ## C1 — merge and duplicate identities -/

/-- A sample movie row used in counterexamples. -/
def movA : Movie := ⟨"Movie A", "Netflix", "Soon", "Film", none⟩

/-- C1: the claim that the merged dataset never contains two records
sharing a (name, platform) identity fails when the duplicate pair arrives
inside one incoming list: both copies are appended. -/
theorem C1_counterexample :
    (mergeMovies [] [movA, movA]).1 = [movA, movA] ∧
    identityIn [movA] movA = true := by decide

/-- C1 (amended): merge appends exactly the incoming rows whose identity
is not already in the existing dataset, in incoming order; an incoming row
whose identity is in the dataset is never appended, but duplicates within
the incoming list itself are not filtered. -/
theorem C1_merge_dedup_against_existing (existing incoming : List Movie) :
    mergeMovies existing incoming =
      (existing ++ incoming.filter (fun m => ! identityIn existing m),
        (incoming.filter (fun m => ! identityIn existing m)).length) ∧
    (∀ m ∈ incoming, identityIn existing m = true →
      m ∉ incoming.filter (fun x => ! identityIn existing x)) := by
  refine ⟨mergeMovies_eq existing incoming, ?_⟩
  intro m _ hid hmem
  have := (List.mem_filter.mp hmem).2
  rw [hid] at this
  exact absurd this (by simp)

/-- Witness for C1's amended theorem at a concrete input. -/
theorem C1_witness :
    mergeMovies [movA] [movA, ⟨"B", "Prime", "", "Film", none⟩] =
      ([movA, ⟨"B", "Prime", "", "Film", none⟩], 1) ∧
    movA ∉ [movA, (⟨"B", "Prime", "", "Film", none⟩ : Movie)].filter
      (fun x => ! identityIn [movA] x) := by
  constructor
  · rw [(C1_merge_dedup_against_existing [movA]
      [movA, ⟨"B", "Prime", "", "Film", none⟩]).1]
    decide
  · exact (C1_merge_dedup_against_existing [movA]
      [movA, ⟨"B", "Prime", "", "Film", none⟩]).2 movA (by decide) (by decide)

/-! ## C9 — idempotence of the cycle at the identity level -/

/-- C9: when every incoming row's identity is already in the dataset,
merge appends nothing and reports zero new rows, and re-sorting an
already-sorted dataset leaves it element-for-element identical. -/
theorem C9_unchanged_source_idempotent (cy : Nat) (D incoming : List Movie)
    (hin : ∀ m ∈ incoming, identityIn D m = true)
    (hsorted : List.Sorted (movieLE cy) D) :
    (mergeMovies D incoming).2 = 0 ∧
    sortMovies cy (mergeMovies D incoming).1 = D := by
  have hfil : incoming.filter (fun m => ! identityIn D m) = [] :=
    List.filter_eq_nil_iff.mpr (fun m hm => by simp [hin m hm])
  rw [mergeMovies_eq, hfil]
  simpa [sortMovies] using hsorted.insertionSort_eq

/-- Movies used in concrete witnesses: a "Soon" title and a blank-date
title, listed in sorted order. -/
def movSoon : Movie := ⟨"Alpha", "Netflix", "Soon", "Film", none⟩

def movBlank : Movie := ⟨"Beta", "Prime", "", "Film", none⟩

/-- Witness for C9 at a concrete sorted two-record dataset. -/
theorem C9_witness :
    (mergeMovies [movSoon, movBlank] [movBlank, movSoon]).2 = 0 ∧
    sortMovies 2025 (mergeMovies [movSoon, movBlank] [movBlank, movSoon]).1 =
      [movSoon, movBlank] :=
  C9_unchanged_source_idempotent 2025 [movSoon, movBlank] [movBlank, movSoon]
    (by decide) (by decide)

/-! ## C10 — produced sort keys are always comparable -/

/-- Every key `sort_key` produces has one of three shapes; in particular
the secondary component's runtime type is determined by the tier. -/
theorem sort_key_shape (cy : Nat) (m : Movie) :
    sort_key cy m = (0, Sec.dt dtMin, m.name) ∨
    sort_key cy m = (2, Sec.dt dtMax, m.name) ∨
    ∃ t : Int, sort_key cy m = (1, Sec.fl t, m.name) := by
  unfold sort_key
  by_cases h1 : parse_date cy m.available_on = dtMin
  · left; simp [h1]
  · by_cases h2 : parse_date cy m.available_on = dtMax
    · right; left; simp [h1, h2, show dtMax ≠ dtMin from by decide]
    · right; right
      refine ⟨-(timestamp (parse_date cy m.available_on)), ?_⟩
      simp [h1, h2]

/-- Auxiliary: a tuple comparison yields a value whenever the secondaries
compare or the tiers differ. -/
theorem pyKeyCmp_isSome (k1 k2 : Key)
    (h : (pySecCmp k1.2.1 k2.2.1).isSome = true ∨ k1.1 ≠ k2.1) :
    (pyKeyCmp k1 k2).isSome = true := by
  unfold pyKeyCmp
  by_cases ht : k1.1 = k2.1
  · rw [if_pos ht]
    rcases h with h | h
    · cases hcmp : pySecCmp k1.2.1 k2.2.1 with
      | none => rw [hcmp] at h; simp at h
      | some o => cases o <;> simp [hcmp]
    · exact absurd ht h
  · rw [if_neg ht]; rfl

/-- C10: `parse_date` is total by construction, and although key
secondaries have mixed runtime types (`datetime` sentinels in tiers 0 and
2, a float in tier 1), any two produced keys compare without a
`TypeError`: when the secondaries' types differ the integer tiers differ
and are compared first. -/
theorem C10_sort_never_raises (cy : Nat) (m1 m2 : Movie) :
    (pyKeyCmp (sort_key cy m1) (sort_key cy m2)).isSome = true := by
  rcases sort_key_shape cy m1 with h1 | h1 | ⟨t1, h1⟩ <;>
    rcases sort_key_shape cy m2 with h2 | h2 | ⟨t2, h2⟩ <;>
      rw [h1, h2] <;>
        first
          | exact pyKeyCmp_isSome _ _ (Or.inl rfl)
          | exact pyKeyCmp_isSome _ _ (Or.inr (by simp))

/-! ## C3 — validation samples only the first element -/

/-- C3: the claim that validation failure covers a missing field in *any*
element is refuted: a list whose first element has all required fields and
whose second element has none still validates. -/
theorem C3_counterexample :
    validate_data_file
      (JData.arr [⟨["name", "platform", "available_on", "type"]⟩, ⟨[]⟩]) = true ∧
    "name" ∈ required_fields ∧
    (⟨[]⟩ : JObj).fields.contains "name" = false := by decide

/-- C3 (amended): validation succeeds exactly when the document is a
non-empty list whose *first* element carries all four required fields;
later elements are not inspected. -/
theorem C3_validate_checks_first_only (d : JData) :
    validate_data_file d = true ↔
      ∃ (sample : JObj) (rest : List JObj), d = JData.arr (sample :: rest) ∧
        ∀ f ∈ required_fields, sample.fields.contains f = true := by
  cases d with
  | corrupt => simp [validate_data_file]
  | notList => simp [validate_data_file]
  | arr items =>
    cases items with
    | nil => simp [validate_data_file]
    | cons sample rest =>
      constructor
      · intro h
        exact ⟨sample, rest, rfl, by
          simpa [validate_data_file, List.all_eq_true] using h⟩
      · rintro ⟨s, r, heq, hall⟩
        cases heq
        simpa [validate_data_file, List.all_eq_true] using hall

/-- Witness for C3's amended theorem. -/
theorem C3_witness :
    ∃ (sample : JObj) (rest : List JObj),
      JData.arr [⟨["name", "platform", "available_on", "type"]⟩, ⟨[]⟩] =
        JData.arr (sample :: rest) ∧
      ∀ f ∈ required_fields, sample.fields.contains f = true :=
  (C3_validate_checks_first_only
    (JData.arr [⟨["name", "platform", "available_on", "type"]⟩, ⟨[]⟩])).mp (by decide)

/-! ## C4 — latest-backup selection ignores the safety lineage -/

/-- C4: the claim that `latestBackup` considers both lineages is refuted:
with only a safety backup present it returns `None`. -/
theorem C4_counterexample :
    get_latest_backup ["movies_safety_20250101_000000.json"] = none ∧
    strStartsWith "movies_safety_20250101_000000.json" "movies_safety_" = true ∧
    strEndsWith "movies_safety_20250101_000000.json" ".json" = true := by decide

/-- C4 (amended): `get_latest_backup` considers only archival
(`movies_backup_*.json`) files: it returns `None` exactly when no archival
backup exists — even if safety backups do — and otherwise returns a
lexicographically greatest archival filename. -/
theorem C4_latest_archival_only (names : List String) :
    (get_latest_backup names = none ↔ names.filter isBackupName = []) ∧
    (∀ x, get_latest_backup names = some x →
      x ∈ names.filter isBackupName ∧
      ∀ y ∈ names.filter isBackupName, charsLe y.data x.data = true) := by
  constructor
  · constructor
    · intro h
      unfold get_latest_backup sortDescStr at h
      have hnil := List.head?_eq_none_iff.mp h
      have hlen := congrArg List.length hnil
      simp only [List.length_insertionSort, List.length_nil] at hlen
      exact List.length_eq_zero.mp hlen
    · intro h
      unfold get_latest_backup sortDescStr
      rw [h]
      rfl
  · intro x hx
    have hsorted : List.Sorted strGE ((names.filter isBackupName).insertionSort strGE) :=
      List.sorted_insertionSort strGE _
    have hperm := List.perm_insertionSort strGE (names.filter isBackupName)
    unfold get_latest_backup sortDescStr at hx
    cases hl : (names.filter isBackupName).insertionSort strGE with
    | nil => rw [hl] at hx; cases hx
    | cons h0 t0 =>
      rw [hl] at hx hsorted hperm
      have hx0 : h0 = x := by simpa using hx
      subst hx0
      constructor
      · exact hperm.subset (List.mem_cons_self _ _)
      · intro y hy
        rcases List.mem_cons.mp (hperm.symm.subset hy) with rfl | hyt
        · exact charsLe_refl _
        · exact List.rel_of_sorted_cons hsorted y hyt

/-- Witness for C4's amended theorem at a concrete directory listing. -/
theorem C4_witness :
    "movies_backup_20250301_000000.json" ∈
      (["movies_backup_20250101_000000.json", "movies.json",
        "movies_backup_20250301_000000.json"].filter isBackupName) ∧
    ∀ y ∈ (["movies_backup_20250101_000000.json", "movies.json",
        "movies_backup_20250301_000000.json"].filter isBackupName),
      charsLe y.data "movies_backup_20250301_000000.json".data = true :=
  (C4_latest_archival_only
    ["movies_backup_20250101_000000.json", "movies.json",
      "movies_backup_20250301_000000.json"]).2
    "movies_backup_20250301_000000.json" (by decide)

/-! ## C5 — the ranking rule -/

theorem mkDate_micro {y m dd : Nat} {d : PyDateTime} (h : mkDate y m dd = some d) :
    d.micro = 0 := by
  unfold mkDate at h
  split at h
  · cases h; rfl
  · cases h

theorem tryDMY_micro {toks : List (List Char)} {d : PyDateTime}
    (h : tryDMY toks = some d) : d.micro = 0 := by
  unfold tryDMY at h
  split at h
  · split at h
    · exact mkDate_micro h
    · cases h
  · cases h

theorem tryMY_micro {toks : List (List Char)} {d : PyDateTime}
    (h : tryMY toks = some d) : d.micro = 0 := by
  unfold tryMY at h
  split at h
  · split at h
    · cases h; rfl
    · cases h
  · cases h

/-- Every successfully parsed date is a midnight value. -/
theorem pyParse_micro {cy : Nat} {toks : List (List Char)} {d : PyDateTime}
    (h : pyParse cy toks = some d) : d.micro = 0 := by
  unfold pyParse at h
  split at h
  next heq => cases h; exact tryDMY_micro heq
  next =>
    split at h
    next heq2 => cases h; exact tryMY_micro heq2
    next => exact tryDMY_micro h

/-- A parsed date is never `datetime.max` (whose time field is not
midnight). -/
theorem pyParse_ne_dtMax {cy : Nat} {toks : List (List Char)} {d : PyDateTime}
    (h : pyParse cy toks = some d) : d ≠ dtMax := by
  intro heq
  have hm := pyParse_micro h
  rw [heq] at hm
  exact absurd hm (by decide)

theorem parse_date_of_soon {cy : Nat} {s : String} (h0 : s ≠ "")
    (h : containsSoon (normalize s) = true) : parse_date cy s = dtMin := by
  unfold parse_date
  rw [if_neg h0]
  simp [h]

theorem parse_date_of_parse {cy : Nat} {s : String} {d : PyDateTime} (h0 : s ≠ "")
    (hsoon : containsSoon (normalize s) = false)
    (hp : pyParse cy (tokenize (normalize s)) = some d) : parse_date cy s = d := by
  unfold parse_date
  rw [if_neg h0]
  simp [hsoon, hp]

theorem parse_date_of_unparseable {cy : Nat} {s : String} (h0 : s ≠ "")
    (hsoon : containsSoon (normalize s) = false)
    (hp : pyParse cy (tokenize (normalize s)) = none) : parse_date cy s = dtMax := by
  unfold parse_date
  rw [if_neg h0]
  simp [hsoon, hp]

theorem secLtb_irrefl (s : Sec) : secLtb s s = false := by
  cases s <;> simp [secLtb]

/-- C5: the claim assigns tier 1 to *any* text parseable as
`day month year`; but `"01 Jan 0001"` parses to `datetime(1,1,1)`, which
equals the `datetime.min` sentinel, so `sort_key` puts it in tier 0. -/
theorem C5_counterexample :
    pyParse 2025 (tokenize (normalize "01 Jan 0001")) = some dtMin ∧
    containsSoon (normalize "01 Jan 0001") = false ∧
    (sort_key 2025 ⟨"X", "P", "01 Jan 0001", "Film", none⟩).1 = 0 ∧
    (sort_key 2025 ⟨"X", "P", "01 Jan 0001", "Film", none⟩).1 ≠ 1 := by decide

/-- C5 (amended): the ranking behaves as claimed — tier 0 with the
minimum sentinel for 'soon' texts, tier 1 with negated timestamp for
parseable dates, tier 2 with the maximum sentinel for everything else,
and the key `(tier, secondary, name)` ordering lower tiers first, newer
dates first within tier 1, and names ascending as the tie-break — except
that a text parsing to the minimum datetime `1 Jan 0001` is
indistinguishable from the 'soon' sentinel and lands in tier 0. -/
theorem C5_rank_and_key (cy : Nat) :
    (∀ m : Movie, m.available_on ≠ "" →
        containsSoon (normalize m.available_on) = true →
        sort_key cy m = (0, Sec.dt dtMin, m.name))
  ∧ (∀ (m : Movie) (d : PyDateTime), m.available_on ≠ "" →
        containsSoon (normalize m.available_on) = false →
        pyParse cy (tokenize (normalize m.available_on)) = some d → d ≠ dtMin →
        sort_key cy m = (1, Sec.fl (-(timestamp d)), m.name))
  ∧ (∀ m : Movie, m.available_on ≠ "" →
        containsSoon (normalize m.available_on) = false →
        pyParse cy (tokenize (normalize m.available_on)) = some dtMin →
        sort_key cy m = (0, Sec.dt dtMin, m.name))
  ∧ (∀ m : Movie, m.available_on = "" ∨
        (containsSoon (normalize m.available_on) = false ∧
          pyParse cy (tokenize (normalize m.available_on)) = none) →
        sort_key cy m = (2, Sec.dt dtMax, m.name))
  ∧ (∀ k1 k2 : Key, k1.1 < k2.1 → keyLEb k1 k2 = true ∧ keyLEb k2 k1 = false)
  ∧ (∀ (t1 t2 : Int) (n1 n2 : String), t1 < t2 →
        keyLEb (1, Sec.fl t1, n1) (1, Sec.fl t2, n2) = true ∧
        keyLEb (1, Sec.fl t2, n2) (1, Sec.fl t1, n1) = false)
  ∧ (∀ (tr : Nat) (sec : Sec) (n1 n2 : String),
        keyLEb (tr, sec, n1) (tr, sec, n2) = charsLe n1.data n2.data) := by
  refine ⟨?_, ?_, ?_, ?_, ?_, ?_, ?_⟩
  · intro m h0 hsoon
    unfold sort_key
    rw [parse_date_of_soon h0 hsoon]
    simp
  · intro m d h0 hsoon hp hmin
    unfold sort_key
    rw [parse_date_of_parse h0 hsoon hp, if_neg hmin, if_neg (pyParse_ne_dtMax hp)]
  · intro m h0 hsoon hp
    unfold sort_key
    rw [parse_date_of_parse h0 hsoon hp]
    simp
  · intro m hcase
    unfold sort_key
    rcases hcase with h0 | ⟨hsoon, hp⟩
    · rw [show parse_date cy m.available_on = dtMax from by
        unfold parse_date; rw [if_pos h0]]
      simp [show dtMax ≠ dtMin from by decide]
    · by_cases h0 : m.available_on = ""
      · rw [show parse_date cy m.available_on = dtMax from by
          unfold parse_date; rw [if_pos h0]]
        simp [show dtMax ≠ dtMin from by decide]
      · rw [parse_date_of_unparseable h0 hsoon hp]
        simp [show dtMax ≠ dtMin from by decide]
  · rintro ⟨a1, s1, n1⟩ ⟨a2, s2, n2⟩ h
    refine ⟨by simp [keyLEb, h], ?_⟩
    simp [keyLEb, Nat.lt_asymm h, Nat.ne_of_gt h]
  · intro t1 t2 n1 n2 h
    refine ⟨by simp [keyLEb, secLtb, h], ?_⟩
    simp [keyLEb, secLtb, lt_asymm h, Sec.fl.injEq, Int.ne_of_gt h]
  · intro tr sec n1 n2
    simp [keyLEb, secLtb_irrefl]

/-- Witness for C5's amended theorem: each branch at a concrete input. -/
theorem C5_witness :
    sort_key 2025 movSoon = (0, Sec.dt dtMin, "Alpha") ∧
    sort_key 2025 ⟨"Gamma", "Zee5", "15 May 2025", "Film", none⟩ =
      (1, Sec.fl (-(timestamp ⟨2025, 5, 15, 0⟩)), "Gamma") ∧
    sort_key 2025 movBlank = (2, Sec.dt dtMax, "Beta") ∧
    keyLEb (0, Sec.dt dtMin, "Alpha")
      (1, Sec.fl (-(timestamp ⟨2025, 5, 15, 0⟩)), "Gamma") = true :=
  ⟨(C5_rank_and_key 2025).1 movSoon (by decide) (by decide),
   (C5_rank_and_key 2025).2.1 ⟨"Gamma", "Zee5", "15 May 2025", "Film", none⟩
     ⟨2025, 5, 15, 0⟩ (by decide) (by decide) (by decide) (by decide),
   (C5_rank_and_key 2025).2.2.2.1 movBlank (Or.inl rfl),
   ((C5_rank_and_key 2025).2.2.2.2.1 (0, Sec.dt dtMin, "Alpha")
     (1, Sec.fl (-(timestamp ⟨2025, 5, 15, 0⟩)), "Gamma") (by decide)).1⟩

/-! ## C8 — retention pruning scope -/

/-- C8: the claim that the retention pass deletes old backups of *either*
lineage fails: an out-of-window safety backup survives
`cleanup_old_backups`. -/
theorem C8_counterexample :
    cleanup_old_backups 100 [⟨"movies_safety_20200101_000000.json", 0⟩] =
      [⟨"movies_safety_20200101_000000.json", 0⟩] ∧
    (0 : Int) < 100 ∧
    strStartsWith "movies_safety_20200101_000000.json" "movies_safety_" = true := by
  decide

/-- C8 (amended): the retention pass deletes exactly the archival
(`movies_backup_*.json`) backups and rotated (`update_*.log`) logs older
than the cutoff, retaining files within the window; files without the
archival prefix — safety backups in particular — are never deleted by it. -/
theorem C8_retention_archival_and_logs (cutoff : Int) (dir : List DirFile) :
    (∀ f, f ∈ cleanup_old_backups cutoff dir ↔
      f ∈ dir ∧ ¬ (isBackupName f.name = true ∧ f.mtime < cutoff))
  ∧ (∀ f, f ∈ cleanup_old_logs cutoff dir ↔
      f ∈ dir ∧ ¬ (strStartsWith f.name "update_" = true ∧
        strEndsWith f.name ".log" = true ∧ f.mtime < cutoff))
  ∧ (∀ f ∈ dir, strStartsWith f.name "movies_backup_" = false →
      f ∈ cleanup_old_backups cutoff dir) := by
  refine ⟨?_, ?_, ?_⟩
  · intro f
    simp only [cleanup_old_backups, List.mem_filter]
    constructor
    · rintro ⟨hmem, hcond⟩
      refine ⟨hmem, ?_⟩
      rintro ⟨hb, hold⟩
      rw [hb, decide_eq_true hold] at hcond
      exact absurd hcond (by simp)
    · rintro ⟨hmem, hcond⟩
      refine ⟨hmem, ?_⟩
      cases hb : isBackupName f.name with
      | false => simp [hb]
      | true =>
        have hnot : ¬ f.mtime < cutoff := fun hold => hcond ⟨hb, hold⟩
        simp [hb, hnot]
  · intro f
    simp only [cleanup_old_logs, List.mem_filter]
    constructor
    · rintro ⟨hmem, hcond⟩
      refine ⟨hmem, ?_⟩
      rintro ⟨hs, he, hold⟩
      rw [hs, he, decide_eq_true hold] at hcond
      exact absurd hcond (by simp)
    · rintro ⟨hmem, hcond⟩
      refine ⟨hmem, ?_⟩
      cases hs : strStartsWith f.name "update_" with
      | false => simp [hs]
      | true =>
        cases he : strEndsWith f.name ".log" with
        | false => simp [hs, he]
        | true =>
          have hnot : ¬ f.mtime < cutoff := fun hold => hcond ⟨hs, he, hold⟩
          simp [hs, he, hnot]
  · intro f hmem hpre
    simp only [cleanup_old_backups, List.mem_filter]
    refine ⟨hmem, ?_⟩
    simp [isBackupName, hpre]

/-- Witness for C8's amended theorem: the old safety file is retained. -/
theorem C8_witness :
    (⟨"movies_safety_20200101_000000.json", 0⟩ : DirFile) ∈
      cleanup_old_backups 100 [⟨"movies_safety_20200101_000000.json", 0⟩] :=
  (C8_retention_archival_and_logs 100
      [⟨"movies_safety_20200101_000000.json", 0⟩]).2.2
    ⟨"movies_safety_20200101_000000.json", 0⟩ (by decide) (by decide)

/-! ## C6 — the data-file write is not crash-safe -/

/-- C6: the claim that a reader can only ever observe the old or the
fully-written new file fails: the truncated (empty) intermediate state is
observable and equals neither. -/
theorem C6_counterexample :
    [] ∈ writeTrace "old content".data "new content".data ∧
    ([] : List Char) ≠ "old content".data ∧
    ([] : List Char) ≠ "new content".data := by decide

/-- C6 (amended): `save_to_file` truncates the data file in place and
streams the new serialisation into it, so during the write the file can
be observed as the old content or as *any* prefix of the new content —
including the empty truncated state; the prior file does not remain
intact through the write. -/
theorem C6_write_truncates_in_place (old new : List Char) :
    old ∈ writeTrace old new ∧
    new ∈ writeTrace old new ∧
    [] ∈ writeTrace old new ∧
    (∀ s ∈ writeTrace old new, s = old ∨ ∃ k, s = new.take k) := by
  refine ⟨List.mem_cons_self _ _, ?_, ?_, ?_⟩
  · exact List.mem_cons_of_mem _ (List.mem_map.mpr
      ⟨new.length, List.mem_range.mpr (Nat.lt_succ_self _), List.take_length new⟩)
  · exact List.mem_cons_of_mem _ (List.mem_map.mpr
      ⟨0, List.mem_range.mpr (Nat.succ_pos _), List.take_zero new⟩)
  · intro s hs
    rcases List.mem_cons.mp hs with rfl | hmem
    · exact Or.inl rfl
    · rcases List.mem_map.mp hmem with ⟨k, _, rfl⟩
      exact Or.inr ⟨k, rfl⟩

/-- Witness for C6's amended theorem at concrete contents. -/
theorem C6_witness :
    "old content".data ∈ writeTrace "old content".data "new content".data ∧
    ("".data = "old content".data ∨ ∃ k, "".data = "new content".data.take k) :=
  ⟨(C6_write_truncates_in_place "old content".data "new content".data).1,
   (C6_write_truncates_in_place "old content".data "new content".data).2.2.2
     "".data (by decide)⟩

/-! ## C2 — extraction failures and the Failed/Restoring path -/

/-- A five-record, identity-distinct, sorted dataset with no backups:
the pre-cycle state used in the orchestrator scenarios. -/
def st5 : FS :=
  ⟨some [⟨"a", "P", "", "f", none⟩, ⟨"b", "P", "", "f", none⟩,
         ⟨"c", "P", "", "f", none⟩, ⟨"d", "P", "", "f", none⟩,
         ⟨"e", "P", "", "f", none⟩], []⟩

/-- C2 is contradicted by the code: on a non-200 response or a missing
table, `scrape_movies` prints and returns normally, so the scraper
subprocess exits 0, `run_scraper` reports success, the stale data file
passes validation, and the cycle completes as a success with no restore
(exit code 0) — the spec's Failed/Restoring route is never taken. -/
theorem C2_extraction_failure_completes_as_success :
    runMain 2025 "T1" "T2" (Fetch.badStatus 404) st5 =
      (st5, ⟨true, true, true, false, false, 0⟩) ∧
    runMain 2025 "T1" "T2" Fetch.noTable st5 =
      (st5, ⟨true, true, true, false, false, 0⟩) := by decide

/-! ## C7 — empty harvest scenario -/

/-- C7: the claimed mechanism fails on the code: with 5 existing records
and an empty harvest, merge preserves the old records, so validation
*passes* and no restore is attempted (the final dataset does equal the
pre-cycle state, but not via the claimed ValidationError-and-restore). -/
theorem C7_counterexample :
    (runMain 2025 "T1" "T2" (Fetch.rows []) st5).2.validationOk = true ∧
    (runMain 2025 "T1" "T2" (Fetch.rows []) st5).2.restoreAttempted = false ∧
    (runMain 2025 "T1" "T2" (Fetch.rows []) st5).1.dataFile = st5.dataFile := by
  decide

/-- C7 (amended): for a non-empty sorted dataset and an empty harvest,
merge keeps every existing record, the rewritten file still validates, no
restore is attempted, the cycle exits 0, and the final dataset equals the
pre-cycle state (with a fresh archival backup of it created and the
safety snapshot removed). -/
theorem C7_empty_harvest_no_restore (cy : Nat) (tsS tsA : String) (st : FS)
    (l : List Movie) (hd : st.dataFile = some l) (hne : l ≠ [])
    (hsorted : List.Sorted (movieLE cy) l)
    (hfresh : ∀ b ∈ st.backups, b.1 ≠ "movies_safety_" ++ tsS ++ ".json")
    (hdiff : ("movies_backup_" ++ tsA ++ ".json" : String) ≠
      "movies_safety_" ++ tsS ++ ".json") :
    runMain cy tsS tsA (Fetch.rows []) st =
      ({ dataFile := some l,
         backups := st.backups ++ [("movies_backup_" ++ tsA ++ ".json", l)] },
        ⟨true, true, true, false, false, 0⟩) := by
  have hmerge : mergeMovies l [] = (l, 0) := rfl
  have hsort : sortMovies cy l = l := hsorted.insertionSort_eq
  have h1 : List.filter (fun b => !decide (b.1 = "movies_safety_" ++ tsS ++ ".json"))
      st.backups = st.backups := by
    refine List.filter_eq_self.mpr (fun b hb => ?_)
    simp [hfresh b hb]
  have h2 : List.filter (fun b => !decide (b.1 = "movies_safety_" ++ tsS ++ ".json"))
      [("movies_backup_" ++ tsA ++ ".json", l)] =
      [("movies_backup_" ++ tsA ++ ".json", l)] := by
    simp [hdiff]
  simp only [runMain, create_safety_backup, run_scraper, save_to_file, validateFS, hd,
    hmerge, hsort, Option.getD_some]
  simp [hne, h1, h2]

/-- Witness for C7's amended theorem at the concrete five-record state. -/
theorem C7_witness :
    runMain 2025 "T1" "T2" (Fetch.rows []) st5 =
      ({ dataFile := st5.dataFile,
         backups := [("movies_backup_" ++ "T2" ++ ".json",
          [⟨"a", "P", "", "f", none⟩, ⟨"b", "P", "", "f", none⟩,
           ⟨"c", "P", "", "f", none⟩, ⟨"d", "P", "", "f", none⟩,
           ⟨"e", "P", "", "f", none⟩])] },
        ⟨true, true, true, false, false, 0⟩) :=
  C7_empty_harvest_no_restore 2025 "T1" "T2" st5 _ rfl (by decide) (by decide)
    (by decide) (by decide)

end OTT
